import Mathlib

/-
Verification development for the financial-research-portal repository.

The repository has two Python source files, `app.py` and `api/extract.py`.
The definitions below are a shallow embedding of the pure computational
core of those files:

  - `extract_financial_data_with_patterns` (app.py, lines 57-139): the
    heuristic regex extractor, embedded with an executable model of the
    concrete regular expressions it uses;
  - `App.create_excel_workbook` (app.py, lines 141-238) and
    `Api.create_excel_workbook` (api/extract.py, lines 113-209): the two
    copies of the spreadsheet renderer, embedded as producers of an
    abstract `Sheet` value (cell writes with value, number format, fill,
    font and border information; actual spreadsheet serialization is a
    black-box library concern);
  - `extract_financial_data_with_claude` (api/extract.py, lines 53-111):
    the model-assisted extractor, with the external API call and the JSON
    deserializer of the standard library as explicit black-box parameters;
  - `extract_route_after_text` (app.py, lines 272-294): the slice of the
    upload route from the point where document text is available.

Numeric values are modelled as rationals; every numeric literal appearing
in the theorems below is exactly representable, so the model agrees with
Python's binary floating point on all inputs considered.
-/

namespace Portal

/-- Python's `\s` character class: `[ \t\n\r\f\v]` (ASCII range). -/
def pySpace (c : Char) : Bool :=
  c = ' ' || c = '\t' || c = '\n' || c = '\r' || c = '\x0b' || c = '\x0c'

/-- Python's `\w` character class restricted to ASCII-relevant inputs:
letters, digits and underscore.  Used for the `\b` word boundaries of the
fiscal-year regex. -/
def isWordChar (c : Char) : Bool :=
  c.isAlpha || c.isDigit || c = '_'

/-- Python `str.strip()` with no argument: remove leading and trailing
whitespace (the documents considered contain only ASCII whitespace). -/
def pyStrip (s : String) : String :=
  String.mk (((s.data.dropWhile fun c => pySpace c).reverse.dropWhile fun c => pySpace c).reverse)

/-- Python `text.split` at newline: split at every newline, keeping empty
parts; the empty text yields one empty part. -/
def splitOnNl : List Char → List String
  | [] => [""]
  | c :: cs =>
      let rest := splitOnNl cs
      if c = '\n' then "" :: rest
      else
        match rest with
        | [] => [String.mk [c]]
        | s :: ss => String.mk (c :: s.data) :: ss

/-- Lookup in an association list, mirroring Python `d[k]` / `k in d`. -/
def dlookup (k : String) : List (String × α) → Option α
  | [] => none
  | (k₁, v) :: rest => if k₁ = k then some v else dlookup k rest

/-- Insertion into an association list with Python `dict` semantics:
an existing key keeps its position and gets the new value, a new key is
appended at the end (Python dicts preserve insertion order). -/
def dinsert (k : String) (v : α) : List (String × α) → List (String × α)
  | [] => [(k, v)]
  | (k₁, v₁) :: rest =>
      if k₁ = k then (k₁, v) :: rest else (k₁, v₁) :: dinsert k v rest

/-- Maximal prefix of characters from the class `[\d,]`, together with the
rest of the input.  First step of matching the number token regex
`[\d,]+\.?\d*` of app.py line 107. -/
def numRun : List Char → List Char × List Char
  | [] => ([], [])
  | c :: cs =>
      if c.isDigit || c = ',' then
        let p := numRun cs
        (c :: p.1, p.2)
      else ([], c :: cs)

/-- Maximal prefix of digits, together with the rest of the input. -/
def digRun : List Char → List Char × List Char
  | [] => ([], [])
  | c :: cs =>
      if c.isDigit then
        let p := digRun cs
        (c :: p.1, p.2)
      else ([], c :: cs)

/-- Fuel-indexed worker for `findNumbers`.  Every step consumes at least
one input character, so fuel equal to the input length always suffices;
the fuel only makes the structural recursion explicit. -/
def findNumbersF : Nat → List Char → List String
  | 0, _ => []
  | _ + 1, [] => []
  | fuel + 1, c :: cs =>
      if c.isDigit || c = ',' then
        let p := numRun (c :: cs)
        match p.2 with
        | '.' :: rest₂ =>
            let q := digRun rest₂
            String.mk (p.1 ++ '.' :: q.1) :: findNumbersF fuel q.2
        | _ => String.mk p.1 :: findNumbersF fuel p.2
      else findNumbersF fuel cs

/-- The token list produced by `re.findall` with pattern `[\d,]+\.?\d*` on
app.py line 107: a left-to-right non-overlapping scan; each token is a
maximal run of digits and commas, optionally followed by one dot and a
maximal run of digits.  (The character classes are disjoint, so the
greedy match needs no backtracking.) -/
def findNumbers (l : List Char) : List String := findNumbersF l.length l

/-- Value of a list of decimal digits. -/
def digitsVal : List Char → Nat
  | [] => 0
  | c :: cs => digitsVal cs + c.toNat.sub 48 * 10 ^ cs.length

/-- Python `float` applied, after comma removal via `replace`, to a token produced by
`findNumbers` (app.py line 114).  After comma removal the token has the
shape `\d*\.?\d*`; Python's `float` succeeds exactly when at least one
digit is present (it rejects the empty string and a bare `"."`, which
arise from tokens like `","` or `",."`).  The resulting value is returned
as an exact rational. -/
def pythonFloat (token : String) : Option ℚ :=
  let cleaned := token.data.filter (fun c => c ≠ ',')
  let ip := (digRun cleaned).1
  let rest := (digRun cleaned).2
  match rest with
  | [] => if ip = [] then none else some (digitsVal ip)
  | '.' :: rest₂ =>
      let fp := (digRun rest₂).1
      if (digRun rest₂).2 = [] then
        if ip = [] && fp = [] then none
        else some ((digitsVal ip : ℚ) + (digitsVal fp : ℚ) / (10 : ℚ) ^ fp.length)
      else none
  | _ => none

/-- The matches of `re.findall` with pattern `\b(20\d{2})\b` of app.py lines
71-72: a left-to-right non-overlapping scan for four-digit groups `20dd`
delimited by word boundaries.  The boolean argument records whether the
previous character was a word character (`False` at the start of the
text). -/
def findYears : Bool → List Char → List String
  | prevW, c₁ :: c₂ :: c₃ :: c₄ :: rest =>
      if !prevW && c₁ = '2' && c₂ = '0' && c₃.isDigit && c₄.isDigit
          && (rest.isEmpty || !isWordChar (rest.headD ' ')) then
        String.mk [c₁, c₂, c₃, c₄] :: findYears true rest
      else
        findYears (isWordChar c₁) (c₂ :: c₃ :: c₄ :: rest)
  | _, c₁ :: rest₁ => findYears (isWordChar c₁) rest₁
  | _, [] => []

/-- Python string comparison `a < b`: lexicographic comparison of code
points. -/
def lexLtB : List Char → List Char → Bool
  | [], [] => false
  | [], _ :: _ => true
  | _ :: _, [] => false
  | a :: as, b :: bs => if a < b then true else if b < a then false else lexLtB as bs

/-- Descending insertion: place the element before the first strictly
smaller one. -/
def insertDescend (x : String) : List String → List String
  | [] => [x]
  | y :: ys => if lexLtB y.data x.data then x :: y :: ys else y :: insertDescend x ys

/-- Python `sorted(ys, reverse=True)` on strings: descending lexicographic
order (on the four-character year strings this coincides with numeric
order; the input years are distinct, for which any correct sort yields the
unique strictly descending enumeration). -/
def sortedDescend : List String → List String
  | [] => []
  | x :: xs => insertDescend x (sortedDescend xs)

/-- The `fiscal_years` computation of app.py lines 70-77: all
word-boundary-delimited matches of `20\d\d`, de-duplicated, sorted
descending, defaulted to `["2024", "2023"]` when there are none, and
truncated to at most three entries. -/
def fiscal_years_of (document_text : String) : List String :=
  let years := sortedDescend (findYears false document_text.data).dedup
  let years := if years = [] then ["2024", "2023"] else years
  years.take 3

/-- Case-sensitive literal prefix test (first argument is the literal). -/
def startsWithLit : List Char → List Char → Bool
  | [], _ => true
  | _ :: _, [] => false
  | w :: ws, c :: cs => w = c && startsWithLit ws cs

/-- Python `needle in haystack` substring test. -/
def containsSub (needle : List Char) : List Char → Bool
  | [] => needle.isEmpty
  | c :: cs => startsWithLit needle (c :: cs) || containsSub needle cs

/-- Python `[A-Z]`. -/
def upperAlpha (c : Char) : Bool := 'A' ≤ c && c ≤ 'Z'

/-- Python `[A-Za-z\s&]`, the middle class of the company-name regex of
app.py line 61. -/
def companyMiddleChar (c : Char) : Bool := c.isAlpha || pySpace c || c = '&'

/-- Corporate-suffix alternatives of the company-name regex, in the
source's alternation order. -/
def corpSuffixes : List String :=
  ["LIMITED", "LTD", "CORPORATION", "CORP", "INC", "INDUSTRIES"]

/-- Backtracking step of `[A-Za-z\s&]+(?:LIMITED|...)` after an initial
`[A-Z]` character `c`: greedy matching takes the maximal middle run and
backtracks one character at a time, so the first success found when trying
middle lengths `m, m-1, ..., 1` is the one Python's `re.search` commits
to.  Returns the characters of capture group 1. -/
def companyBack (c : Char) (cs : List Char) : Nat → Option (List Char)
  | 0 => none
  | m + 1 =>
      match corpSuffixes.find? (fun sfx => startsWithLit sfx.data (cs.drop (m + 1))) with
      | some sfx => some (c :: cs.take (m + 1) ++ sfx.data)
      | none => companyBack c cs m

/-- The company-name search of app.py lines 61-62: leftmost start position
wins; at each start, greedy backtracking as in `companyBack`.  (Any
corporate suffix consists of middle-class characters, so a successful
match always lies inside the maximal middle run.) -/
def companySearch : List Char → Option (List Char)
  | [] => none
  | c :: cs =>
      match (if upperAlpha c then companyBack c cs (cs.takeWhile companyMiddleChar).length else none) with
      | some g => some g
      | none => companySearch cs

/-- Shapes of the fixed line-item label regexes of app.py lines
82-94: literal word (matched case-insensitively, for `re.IGNORECASE`),
`\s+`, `.*`, alternation, concatenation and the empty pattern (used for
`(?:...)?`). -/
inductive Pat
  | eps : Pat
  | lit : String → Pat
  | ws : Pat
  | dotstar : Pat
  | alt : Pat → Pat → Pat
  | seq : Pat → Pat → Pat

/-- Case-insensitive literal prefix strip: consumes the literal (first
argument) from the front of the input and returns the rest. -/
def stripLitCI : List Char → List Char → Option (List Char)
  | [], s => some s
  | _ :: _, [] => none
  | w :: ws, c :: cs => if c.toLower = w.toLower then stripLitCI ws cs else none

/-- All suffixes obtained by consuming at least one `\s` character. -/
def wsTails : List Char → List (List Char)
  | [] => []
  | c :: cs => if pySpace c then cs :: wsTails cs else []

/-- All suffixes of a list, including the list itself (the residues of
`.*`; the scanned lines contain no newline, so `.` not matching newline
does not matter). -/
def allSuffixes : List Char → List (List Char)
  | [] => [[]]
  | c :: cs => (c :: cs) :: allSuffixes cs

/-- All residues left after matching a pattern against a prefix of the
input. -/
def matchP : Pat → List Char → List (List Char)
  | .eps, s => [s]
  | .lit w, s =>
      match stripLitCI w.data s with
      | some r => [r]
      | none => []
  | .ws, s => wsTails s
  | .dotstar, s => allSuffixes s
  | .alt p q, s => matchP p s ++ matchP q s
  | .seq p q, s => (matchP p s).flatMap (matchP q)

/-- Search anywhere in the input: `re.search` succeeds when the pattern
matches starting at some position. -/
def searchAux (p : Pat) : List Char → Bool
  | [] => !(matchP p []).isEmpty
  | c :: cs => !(matchP p (c :: cs)).isEmpty || searchAux p cs

/-- Boolean result of `re.search` on a line under `re.IGNORECASE` as used on
app.py line 104. -/
def reSearch (p : Pat) (line : String) : Bool := searchAux p line.data

/-- Words joined by `\s+`. -/
def wseq : List String → Pat
  | [] => .eps
  | [w] => .lit w
  | w :: rest => .seq (.lit w) (.seq .ws (wseq rest))

/-- The `line_items` table of app.py lines 82-94: for each of the 11
line-item keys, its label-pattern variants in the source's priority
order. -/
def line_items : List (String × List Pat) :=
  [ ("revenue",
      [wseq ["revenue", "from", "operations"], wseq ["total", "revenue"],
       .lit "sales", wseq ["net", "revenue"], .lit "revenues"]),
    ("cost_of_revenue",
      [.seq (wseq ["cost", "of"])
         (.seq .ws (.alt (.lit "revenue") (.alt (wseq ["goods", "sold"]) (.lit "materials")))),
       .lit "cogs",
       wseq ["cost", "of", "sales"]]),
    ("gross_profit", [wseq ["gross", "profit"], wseq ["gross", "margin"]]),
    ("operating_expenses",
      [.seq (.lit "operating") (.seq .ws (.alt (.lit "expenses") (.lit "costs"))),
       .lit "sga",
       .seq (.lit "selling") (.seq .dotstar (.lit "administrative"))]),
    ("operating_income",
      [.seq (.lit "operating") (.seq .ws (.alt (.lit "income") (.lit "profit"))),
       .lit "ebit"]),
    ("interest_expense",
      [.seq (.lit "interest") (.seq .ws (.alt (.lit "expense") (.lit "paid")))]),
    ("tax_expense",
      [.seq (.alt (.seq (.lit "income") .ws) .eps)
         (.seq (.lit "tax") (.seq .ws (.alt (.lit "expense") (.lit "cost")))),
       wseq ["provision", "for", "taxes"]]),
    ("net_income",
      [.seq (.lit "net") (.seq .ws (.alt (.lit "income") (.lit "profit"))),
       .lit "earnings",
       wseq ["net", "earnings"]]),
    ("total_assets", [wseq ["total", "assets"]]),
    ("total_liabilities", [wseq ["total", "liabilities"]]),
    ("shareholders_equity",
      [.seq (.alt (.lit "shareholders") (.lit "stockholders")) (.seq .ws (.lit "equity")),
       wseq ["total", "equity"]]) ]

/-- The year-assignment loop of app.py lines 111-117: the j-th extracted
number token goes to the j-th fiscal year; a token Python's `float`
rejects is skipped (`except: pass`), leaving that year untouched. -/
def assignYears : List String → List String → List (String × ℚ) → List (String × ℚ)
  | year :: ys, num :: ns, d =>
      assignYears ys ns
        (match pythonFloat num with
         | some v => dinsert year v d
         | none => d)
  | _, _, d => d

/-- The line scan of app.py lines 102-118 for one pattern: the first line
matching the pattern whose number-token list is non-empty receives the
year assignment and stops the scan (the `break` on line 118); a matching
line with no number tokens does not stop the scan. -/
def scanLines (p : Pat) (fys : List String) : List String → List (String × ℚ) → List (String × ℚ)
  | [], d => d
  | line :: rest, d =>
      if reSearch p line then
        let numbers := findNumbers line.data
        if numbers.isEmpty then scanLines p fys rest d
        else assignYears fys numbers d
      else scanLines p fys rest d

/-- The pattern loop of app.py lines 100-118: every pattern variant is
tried in order (the `break` on line 118 only leaves the inner line loop),
each updating the accumulated per-item mapping. -/
def scanPatterns (fys : List String) (lines : List String) : List Pat → List (String × ℚ) → List (String × ℚ)
  | [], d => d
  | p :: ps, d => scanPatterns fys lines ps (scanLines p fys lines d)

/-- The `FinancialRecord` of spec section 3, as the renderer receives it:
a Python dict in which any of the six keys may be absent (the renderer
reads every key through `.get` with a default). -/
structure FinancialRecord where
  company_name : Option String
  fiscal_years : Option (List String)
  financial_data : Option (List (String × List (String × ℚ)))
  currency : Option String
  units : Option String
  notes : Option (List String)
  deriving DecidableEq

/-- The fixed notes of app.py lines 129-133. -/
def heuristicNotes : List String :=
  [ "Data extracted using pattern matching",
    "Some values may be approximate if document format varies",
    "Manual review recommended for accuracy" ]

/-- The `result` dict built by the heuristic extractor body (app.py lines
60-134).  The `lines` split is hoisted out of the pattern loop; the source
recomputes the same pure value on each iteration (line 102). -/
def heuristicResult (document_text : String) : FinancialRecord :=
  let company_name :=
    match companySearch document_text.data with
    | some g => pyStrip (String.mk g)
    | none => "Unknown"
  let lowered := document_text.data.map Char.toLower
  let currency :=
    if containsSub "₹".data document_text.data || containsSub "crores".data lowered then "INR"
    else "USD"
  let units := if containsSub "crores".data lowered then "Crores" else "Actual"
  let fiscal_years := fiscal_years_of document_text
  let lines := splitOnNl document_text.data
  let rawData := line_items.map (fun item => (item.1, scanPatterns fiscal_years lines item.2 []))
  let financial_data := rawData.filter (fun kv => !kv.2.isEmpty)
  { company_name := some company_name
    fiscal_years := some fiscal_years
    financial_data := some financial_data
    currency := some currency
    units := some units
    notes := some heuristicNotes }

/-- The heuristic extractor, app.py lines 57-139: returns the `result`
dict on success.  The Python function wraps its body in `try/except` and
returns an error string from the handler; every operation in the body is
total (the one fallible step, `float` on a number token, is individually
guarded on lines 113-117), so the handler is unreachable and the function
always returns `(result, None)`. -/
def extract_financial_data_with_patterns (document_text : String) : Except String FinancialRecord :=
  Except.ok (heuristicResult document_text)

/-- Value written into a spreadsheet cell: a string or a number. -/
inductive CellVal
  | str : String → CellVal
  | num : ℚ → CellVal
  deriving DecidableEq

/-- Abstract spreadsheet cell: the value plus the style attributes the
renderer sets (number format, fill color, font, border, alignment).
Attributes the renderer never touches keep their defaults. -/
structure Cell where
  value : CellVal
  numberFormat : Option String := none
  fill : Option String := none
  fontBold : Bool := false
  fontItalic : Bool := false
  fontColor : Option String := none
  fontSize : Option Nat := none
  border : Bool := false
  alignRight : Bool := false
  deriving DecidableEq

/-- Abstract workbook with a single worksheet: sheet title, the cell
writes in program order as (row, column, cell), the merged ranges as
(first row, first column, last row, last column), and the column
widths. -/
structure Sheet where
  sheetTitle : String
  cells : List (Nat × Nat × Cell)
  merges : List (Nat × Nat × Nat × Nat)
  colWidths : List (Nat × Nat)
  deriving DecidableEq

/-- Header-styled cell (app.py lines 148-149): dark fill, bold white
size-12 font, border. -/
def headerCell (text : String) : Cell :=
  { value := .str text, fill := some "1F4E78", fontBold := true,
    fontColor := some "FFFFFF", fontSize := some 12, border := true }

/-- Line-item label cell (app.py lines 202-204): bold, border. -/
def labelCell (label : String) : Cell :=
  { value := .str label, fontBold := true, border := true }

/-- Present-value cell (app.py lines 210-212, 218-219): the numeric value
with thousands-separator two-decimal number format, border,
right-aligned. -/
def valueCell (v : ℚ) : Cell :=
  { value := .num v, numberFormat := some "#,##0.00", border := true, alignRight := true }

/-- Missing-value cell (app.py lines 213-219): the literal "N/A" with the
highlight fill and italic red font, border, right-aligned. -/
def naCell : Cell :=
  { value := .str "N/A", fill := some "FFC7CE", fontItalic := true,
    fontColor := some "9C0006", border := true, alignRight := true }

/-- The cell content chosen for one line item and one fiscal year (app.py
lines 209-216): the value when both the item key and the year are present,
the missing marker otherwise. -/
def yearDataCell (data : List (String × List (String × ℚ))) (key year : String) : Cell :=
  match dlookup key data with
  | some m =>
      match dlookup year m with
      | some v => valueCell v
      | none => naCell
  | none => naCell

/-- Year header cells (app.py lines 176-181), one per fiscal year starting
at the given column. -/
def headerCellsFrom (col : Nat) : List String → List (Nat × Nat × Cell)
  | [] => []
  | y :: ys => (5, col, headerCell ("FY " ++ y)) :: headerCellsFrom (col + 1) ys

/-- Year cells of one line-item row (app.py lines 206-219), starting at
the given column. -/
def yearCellsFrom (row col : Nat) (data : List (String × List (String × ℚ))) (key : String) :
    List String → List (Nat × Nat × Cell)
  | [] => []
  | y :: ys => (row, col, yearDataCell data key y) :: yearCellsFrom row (col + 1) data key ys

/-- The fixed `financial_items_list` of app.py lines 184-196 (identical in
api/extract.py lines 155-167): the 11-key vocabulary with human-readable
labels, in rendering order. -/
def financial_items_list : List (String × String) :=
  [ ("revenue", "Revenue"),
    ("cost_of_revenue", "Cost of Revenue"),
    ("gross_profit", "Gross Profit"),
    ("operating_expenses", "Operating Expenses"),
    ("operating_income", "Operating Income"),
    ("interest_expense", "Interest Expense"),
    ("tax_expense", "Tax Expense"),
    ("net_income", "Net Income"),
    ("total_assets", "Total Assets"),
    ("total_liabilities", "Total Liabilities"),
    ("shareholders_equity", "Shareholders\x27 Equity") ]

/-- The line-item row loop of app.py lines 200-221: one row per item
starting at the given row, each row being the label cell followed by one
cell per fiscal year. -/
def dataRowsFrom (row : Nat) (years : List String) (data : List (String × List (String × ℚ))) :
    List (String × String) → List (Nat × Nat × Cell)
  | [] => []
  | (key, label) :: rest =>
      ((row, 1, labelCell label) :: yearCellsFrom row 2 data key years)
        ++ dataRowsFrom (row + 1) years data rest

/-- The notes loop of app.py lines 228-231: one bulleted row per note. -/
def noteCellsFrom (row : Nat) : List String → List (Nat × Nat × Cell)
  | [] => []
  | note :: rest => (row, 1, { value := .str ("• " ++ note) }) :: noteCellsFrom (row + 1) rest

/-- The merges created by the notes loop (app.py line 231). -/
def noteMergesFrom (row : Nat) : List String → List (Nat × Nat × Nat × Nat)
  | [] => []
  | _ :: rest => (row, 1, row, 5) :: noteMergesFrom (row + 1) rest

/-- The year column widths of app.py lines 235-236. -/
def yearWidthsFrom (col : Nat) : Nat → List (Nat × Nat)
  | 0 => []
  | n + 1 => (col, 18) :: yearWidthsFrom (col + 1) n

namespace App

/-- The renderer `create_excel_workbook` of app.py lines 141-238.  The
local style `data_fill` (line 150) is defined and never used; it is kept
here as an unused binding. -/
def create_excel_workbook (financial_data : FinancialRecord) : Sheet :=
  let _data_fill := "D9E1F2"
  let years := financial_data.fiscal_years.getD []
  let data := financial_data.financial_data.getD []
  let notesHeadingRow := 6 + financial_items_list.length + 2
  { sheetTitle := "Financial Data"
    cells :=
      (1, 1, { value := .str ("Financial Statement - " ++ financial_data.company_name.getD "Unknown Company"),
               fontBold := true, fontSize := some 14 }) ::
      (2, 1, { value := .str ("Currency: " ++ financial_data.currency.getD "Unknown") }) ::
      (3, 1, { value := .str ("Units: " ++ financial_data.units.getD "Actual") }) ::
      (5, 1, headerCell "Line Item") ::
      (headerCellsFrom 2 years ++
        dataRowsFrom 6 years data financial_items_list ++
        (notesHeadingRow, 1, { value := .str "Notes & Assumptions:", fontBold := true }) ::
        noteCellsFrom (notesHeadingRow + 1) (financial_data.notes.getD []))
    merges := (1, 1, 1, 5) :: noteMergesFrom (notesHeadingRow + 1) (financial_data.notes.getD [])
    colWidths := (1, 25) :: yearWidthsFrom 2 years.length }

end App

namespace Api

/-- The renderer `create_excel_workbook` of api/extract.py lines 113-209,
line for line the same as the copy in app.py except that it does not
define the unused `data_fill` style. -/
def create_excel_workbook (financial_data : FinancialRecord) : Sheet :=
  let years := financial_data.fiscal_years.getD []
  let data := financial_data.financial_data.getD []
  let notesHeadingRow := 6 + financial_items_list.length + 2
  { sheetTitle := "Financial Data"
    cells :=
      (1, 1, { value := .str ("Financial Statement - " ++ financial_data.company_name.getD "Unknown Company"),
               fontBold := true, fontSize := some 14 }) ::
      (2, 1, { value := .str ("Currency: " ++ financial_data.currency.getD "Unknown") }) ::
      (3, 1, { value := .str ("Units: " ++ financial_data.units.getD "Actual") }) ::
      (5, 1, headerCell "Line Item") ::
      (headerCellsFrom 2 years ++
        dataRowsFrom 6 years data financial_items_list ++
        (notesHeadingRow, 1, { value := .str "Notes & Assumptions:", fontBold := true }) ::
        noteCellsFrom (notesHeadingRow + 1) (financial_data.notes.getD []))
    merges := (1, 1, 1, 5) :: noteMergesFrom (notesHeadingRow + 1) (financial_data.notes.getD [])
    colWidths := (1, 25) :: yearWidthsFrom 2 years.length }

end Api

/-- All cells written at a given (row, column) position, in program
order. -/
def cellsWrittenAt (s : Sheet) (r c : Nat) : List Cell :=
  (s.cells.filter (fun e => e.1 = r && e.2.1 = c)).map (fun e => e.2.2)

/-- The final content of the cell at (row, column): the last write wins,
as in the spreadsheet library. -/
def cellAt (s : Sheet) (r c : Nat) : Option Cell :=
  (cellsWrittenAt s r c).getLast?

/-- Error outcomes of the model-assisted extractor (api/extract.py lines
108-111): `extractionFailed` for a JSON parse failure ("Failed to parse
financial data: ..."), `serviceError` for a failure of the external call
("Claude API error: ..."). -/
inductive ClaudeError
  | extractionFailed : String → ClaudeError
  | serviceError : String → ClaudeError
  deriving DecidableEq

/-- The fixed instructional text preceding the document excerpt in the
prompt of api/extract.py lines 58-94 (braces and apostrophes written as
character escapes). -/
def claudePromptPrefix : String :=
  "\nYou are a financial analyst. Extract financial statement data from this document.\n\nReturn ONLY a valid JSON object (no markdown, no code blocks) with this exact structure:\n\x7b\n  \"company_name\": \"company name or \x27Unknown\x27\",\n  \"fiscal_years\": [\"2024\", \"2023\", \"2022\"],\n  \"financial_data\": \x7b\n    \"revenue\": \x7b\"2024\": 123456.00, \"2023\": 120000.00\x7d,\n    \"cost_of_revenue\": \x7b\"2024\": 50000.00\x7d,\n    \"gross_profit\": \x7b\"2024\": 73456.00\x7d,\n    \"operating_expenses\": \x7b\"2024\": 30000.00\x7d,\n    \"operating_income\": \x7b\"2024\": 43456.00\x7d,\n    \"interest_expense\": \x7b\x7d,\n    \"tax_expense\": \x7b\"2024\": 8000.00\x7d,\n    \"net_income\": \x7b\"2024\": 35456.00\x7d,\n    \"total_assets\": \x7b\"2024\": 500000.00\x7d,\n    \"total_liabilities\": \x7b\"2024\": 200000.00\x7d,\n    \"shareholders_equity\": \x7b\"2024\": 300000.00\x7d\n  \x7d,\n  \"currency\": \"USD\",\n  \"units\": \"thousands or actual\",\n  \"notes\": [\"any missing data or assumptions\"]\n\x7d\n\nIMPORTANT:\n- Extract ONLY numbers that are explicitly stated in the document\n- Do NOT hallucinate or estimate values\n- If a line item is not found, omit it from the object\n- Preserve the original numbers (don\x27t convert units unless stated)\n- If currency/units are unclear, note in \"notes\"\n- Extract all years of data present\n- Return ONLY the JSON object, nothing else\n\nDocument text:\n"

/-- The newline closing the prompt f-string after the document excerpt. -/
def claudePromptSuffix : String := "\n"

/-- The prompt of api/extract.py lines 58-94: the fixed instruction text
around the first 8000 characters of the document. -/
def claudePrompt (document_text : String) : String :=
  claudePromptPrefix ++ document_text.take 8000 ++ claudePromptSuffix

/-- The model-assisted extractor of api/extract.py lines 53-111.
`apiCall` is the black-box external capability: client construction,
`messages.create` and the `message.content[0].text` access; any exception
it raises is its `Except.error` outcome and reaches the generic handler on
line 110 ("Claude API error").  `json_loads` is the black-box JSON
deserializer of the standard library; its failure is the
`json.JSONDecodeError` handler on line 108 ("Failed to parse financial
data", whose appended exception detail text is abstracted away).  The
response text is trimmed (`.strip()`, line 104) before parsing. -/
def extract_financial_data_with_claude {J : Type}
    (apiCall : String → Except String String)
    (json_loads : String → Option J)
    (document_text : String) : Except ClaudeError J :=
  match apiCall (claudePrompt document_text) with
  | .error e => .error (.serviceError ("Claude API error: " ++ e))
  | .ok content =>
      let response_text := pyStrip content
      match json_loads response_text with
      | some j => .ok j
      | none => .error (.extractionFailed "Failed to parse financial data")

/-- The upload route of app.py from the point where the document text is
available (lines 272-294): reject empty or short (trimmed length under
100) text with a 400 response, otherwise run the heuristic extractor and
render the workbook.  File handling, HTTP framing and the byte
serialization of the workbook are outside the model. -/
def extract_route_after_text (document_text : String) : Except (Nat × String) Sheet :=
  if document_text = "" || (pyStrip document_text).length < 100 then
    .error (400, "Document appears to be empty or unreadable")
  else
    match extract_financial_data_with_patterns document_text with
    | .error e => .error (400, e)
    | .ok financial_data => .ok (App.create_excel_workbook financial_data)

/-- Combined lookup "key in data and year in data[key]" used by the
renderer (app.py line 209). -/
def lookupValue (data : List (String × List (String × ℚ))) (key year : String) : Option ℚ :=
  match dlookup key data with
  | some m => dlookup year m
  | none => none

/-- Document used to refute claim C1: the top-priority revenue pattern
hits the first line, and the lower-priority `sales` pattern then hits the
second line and overwrites the first year's value. -/
def c1doc : String := "revenue from operations 100 200\nsales 300"

/-- Record produced by the heuristic extractor on `c1doc`. -/
def c1record : FinancialRecord :=
  { company_name := some "Unknown"
    fiscal_years := some ["2024", "2023"]
    financial_data := some [("revenue", [("2024", 300), ("2023", 200)])]
    currency := some "USD"
    units := some "Actual"
    notes := some heuristicNotes }

/-- Document of the end-to-end scenario of claim C2. -/
def c2doc : String := "2024 2023\nRevenue from operations 1,000 900"

/-- Record produced by the heuristic extractor on `c2doc`. -/
def c2record : FinancialRecord :=
  { company_name := some "Unknown"
    fiscal_years := some ["2024", "2023"]
    financial_data := some [("revenue", [("2024", 1000), ("2023", 900)])]
    currency := some "USD"
    units := some "Actual"
    notes := some heuristicNotes }

/-- Document whose matched revenue line carries the malformed number token
`",."` (a bare comma-dot), exercising the guarded `float` conversion. -/
def c10doc : String := "revenues ,. 5"

/-- Record produced by the heuristic extractor on `c10doc`: the malformed
first token is skipped, so the first fiscal year is absent and the second
receives 5. -/
def c10record : FinancialRecord :=
  { company_name := some "Unknown"
    fiscal_years := some ["2024", "2023"]
    financial_data := some [("revenue", [("2023", 5)])]
    currency := some "USD"
    units := some "Actual"
    notes := some heuristicNotes }

/-- All substrings matching `20\d\d` with no word-boundary requirement:
at every position, a literal `20` followed by two digits counts.  Modelled
from the spec words for claim C3 ("collect all 4-digit substrings matching
`20\d\d`"), to be compared with the source's boundary-delimited scan
`findYears`. -/
def allYearSubstrings : List Char → List String
  | c₁ :: c₂ :: c₃ :: c₄ :: rest =>
      (if c₁ = '2' && c₂ = '0' && c₃.isDigit && c₄.isDigit then
        [String.mk [c₁, c₂, c₃, c₄]]
       else [])
        ++ allYearSubstrings (c₂ :: c₃ :: c₄ :: rest)
  | _ => []

/-- Modelled from the spec: the fiscal-year procedure exactly as the words
of claim C3 state it (all substrings matching `20\d\d`, deduplicated,
sorted descending, at most 3, with the default when none exist). -/
def claimFiscalYears (document_text : String) : List String :=
  let years := sortedDescend (allYearSubstrings document_text.data).dedup
  let years := if years = [] then ["2024", "2023"] else years
  years.take 3

/-- Non-strict descending order on strings under the Python comparison:
the first is not lexicographically below the second. -/
def descGe (a b : String) : Prop := lexLtB a.data b.data = false

/-- The fixed 11-key vocabulary, in rendering order. -/
def vocabKeys : List String := financial_items_list.map Prod.fst

/-- A 120-character document, long enough to pass the length policy
check. -/
def c8longdoc : String := String.mk (List.replicate 120 'a')

/-- Record of the spec's renderer scenario: years 2024 and 2023, revenue
present only for 2024. -/
def c5record : FinancialRecord :=
  { company_name := some "Acme"
    fiscal_years := some ["2024", "2023"]
    financial_data := some [("revenue", [("2024", 100)])]
    currency := some "USD"
    units := some "Actual"
    notes := some [] }

theorem dlookup_dinsert_self (k : String) (v : α) (d : List (String × α)) :
    dlookup k (dinsert k v d) = some v := by
  induction d with
  | nil => simp [dinsert, dlookup]
  | cons kv rest ih =>
      obtain ⟨k₁, v₁⟩ := kv
      by_cases h : k₁ = k
      · simp [dinsert, dlookup, h]
      · simp [dinsert, dlookup, h, ih]

theorem dlookup_dinsert_ne (k k' : String) (hne : k' ≠ k) (v : α) (d : List (String × α)) :
    dlookup k (dinsert k' v d) = dlookup k d := by
  induction d with
  | nil => simp [dinsert, dlookup, hne]
  | cons kv rest ih =>
      obtain ⟨k₁, v₁⟩ := kv
      by_cases h : k₁ = k'
      · subst h
        simp [dinsert, dlookup, hne]
      · by_cases h₂ : k₁ = k
        · subst h₂
          simp [dinsert, dlookup, h, Ne.symm hne]
        · simp [dinsert, dlookup, h, h₂, ih]

/-- A year not among the remaining fiscal years keeps its binding through
the rest of the assignment loop. -/
theorem assignYears_lookup_of_not_mem (ys ns : List String) (d : List (String × ℚ))
    (y : String) (hy : y ∉ ys) : dlookup y (assignYears ys ns d) = dlookup y d := by
  induction ys generalizing ns d with
  | nil => cases ns <;> simp [assignYears]
  | cons y₁ ys' ih =>
      cases ns with
      | nil => simp [assignYears]
      | cons n₁ ns' =>
          have hneq : y₁ ≠ y := fun h => hy (h ▸ List.mem_cons_self y₁ ys')
          have hy' : y ∉ ys' := fun h => hy (List.mem_cons_of_mem _ h)
          simp only [assignYears]
          cases hf : pythonFloat n₁ with
          | none => simpa using ih ns' d hy'
          | some v =>
              rw [ih ns' _ hy', dlookup_dinsert_ne y y₁ hneq]

/-- Positional year assignment (app.py lines 111-117): when the fiscal
years are distinct, the j-th year receives exactly the parsed value of the
j-th number token. -/
theorem assignYears_get (fys nums : List String) (d : List (String × ℚ)) (j : Nat)
    (y n : String) (v : ℚ) (hnd : fys.Nodup) (hy : fys.get? j = some y)
    (hn : nums.get? j = some n) (hv : pythonFloat n = some v) :
    dlookup y (assignYears fys nums d) = some v := by
  induction j generalizing fys nums d with
  | zero =>
      cases fys with
      | nil => simp at hy
      | cons y₁ ys' =>
          cases nums with
          | nil => simp at hn
          | cons n₁ ns' =>
              have hyv : y₁ = y := by simpa using hy
              have hnv : n₁ = n := by simpa using hn
              have hy' : y ∉ ys' := hyv ▸ (List.nodup_cons.mp hnd).1
              simp only [assignYears, hnv, hv]
              rw [assignYears_lookup_of_not_mem ys' ns' _ y hy', hyv, dlookup_dinsert_self]
  | succ j' ih =>
      cases fys with
      | nil => simp at hy
      | cons y₁ ys' =>
          cases nums with
          | nil => simp at hn
          | cons n₁ ns' =>
              simp only [List.get?_cons_succ] at hy hn
              have hnd' : ys'.Nodup := (List.nodup_cons.mp hnd).2
              simp only [assignYears]
              exact ih ys' ns' _ hnd' hy hn

/-- The heuristic extractor never takes its error branch. -/
theorem extract_patterns_total (t : String) :
    ∃ r, extract_financial_data_with_patterns t = Except.ok r :=
  ⟨_, rfl⟩

/-- The line scan for a single pattern uses exactly the first line that
matches the pattern and carries at least one number token. -/
theorem scanLines_eq_find (p : Pat) (fys : List String) (lines : List String)
    (d : List (String × ℚ)) :
    scanLines p fys lines d =
      match lines.find? (fun l => reSearch p l && !(findNumbers l.data).isEmpty) with
      | some l => assignYears fys (findNumbers l.data) d
      | none => d := by
  induction lines with
  | nil => simp [scanLines]
  | cons line rest ih =>
      by_cases hs : reSearch p line = true
      · by_cases hn : (findNumbers line.data).isEmpty = true
        · simp [scanLines, hs, hn, List.find?, ih]
        · simp only [Bool.not_eq_true] at hn
          simp [scanLines, hs, hn, List.find?]
      · simp only [Bool.not_eq_true] at hs
        simp [scanLines, hs, List.find?, ih]

/-- Claim C1 is false on the code: on `c1doc` the heuristic extractor
records revenue values 2024 ↦ 300, 2023 ↦ 200, which is not the
assignment produced by the hit line of the earliest matching pattern
(`revenue from operations 100 200`, which would give 2024 ↦ 100,
2023 ↦ 200) nor the assignment produced by any other single line of the
document: the `sales` variant was still scanned after the first variant
hit, and overwrote the first year's value. -/
theorem claim1_counterexample :
    extract_financial_data_with_patterns c1doc = Except.ok c1record ∧
    c1record.financial_data = some [("revenue", [("2024", 300), ("2023", 200)])] ∧
    assignYears ["2024", "2023"] (findNumbers "revenue from operations 100 200".data) [] =
      [("2024", 100), ("2023", 200)] ∧
    (∀ l ∈ splitOnNl c1doc.data,
      assignYears ["2024", "2023"] (findNumbers l.data) [] ≠ [("2024", 300), ("2023", 200)]) :=
  ⟨by rfl, by rfl, by decide, by decide⟩

/-- Claim C1 amended: for a given pattern only the first matching line
that carries at least one number token is used (matching lines without
number tokens are skipped, and scanning stops at that line); but once a
pattern variant produces a hit, the remaining variants for the same item
are still scanned in priority order, each positionally overwriting the
accumulated values, so the recorded values for an item may come from more
than one matched line. -/
theorem claim1_amended :
    (∀ (p : Pat) (fys lines : List String) (d : List (String × ℚ)),
      scanLines p fys lines d =
        match lines.find? (fun l => reSearch p l && !(findNumbers l.data).isEmpty) with
        | some l => assignYears fys (findNumbers l.data) d
        | none => d) ∧
    (∀ (p : Pat) (ps : List Pat) (fys lines : List String) (d : List (String × ℚ)),
      scanPatterns fys lines (p :: ps) d = scanPatterns fys lines ps (scanLines p fys lines d)) :=
  ⟨scanLines_eq_find, fun _ _ _ _ _ => rfl⟩

/-- Claim C2: the i-th extracted number token of a matched line is
assigned to the i-th fiscal year, with no pairing by proximity or label;
and on the spec's end-to-end document the extractor maps revenue
2024 ↦ 1000 and 2023 ↦ 900. -/
theorem claim2_positional_assignment :
    (∀ (fys nums : List String) (d : List (String × ℚ)) (j : Nat) (y n : String) (v : ℚ),
      fys.Nodup → fys.get? j = some y → nums.get? j = some n → pythonFloat n = some v →
      dlookup y (assignYears fys nums d) = some v) ∧
    extract_financial_data_with_patterns c2doc = Except.ok c2record ∧
    c2record.financial_data = some [("revenue", [("2024", 1000), ("2023", 900)])] :=
  ⟨assignYears_get, by rfl, rfl⟩

/-- Witness for claim C2 at the end-to-end input: positions 0 and 1 of
the extracted tokens `["1,000", "900"]` land on fiscal years 2024 and
2023. -/
theorem claim2_witness :
    dlookup "2024" (assignYears ["2024", "2023"] ["1,000", "900"] []) = some 1000 ∧
    dlookup "2023" (assignYears ["2024", "2023"] ["1,000", "900"] []) = some 900 :=
  ⟨claim2_positional_assignment.1 _ _ [] 0 "2024" "1,000" 1000 (by decide) rfl rfl (by decide),
   claim2_positional_assignment.1 _ _ [] 1 "2023" "900" 900 (by decide) rfl rfl (by decide)⟩

/-- Claim C4: every line item present in the extractor's output mapping
has at least one year-to-value entry; items with no extracted values are
filtered out (app.py line 121). -/
theorem claim4_no_empty_items :
    ∀ (t : String) (r : FinancialRecord),
      extract_financial_data_with_patterns t = Except.ok r →
      ∀ kv ∈ r.financial_data.getD [], kv.2 ≠ [] := by
  intro t r h kv hm
  have hr : heuristicResult t = r := by injection h
  subst hr
  simp only [heuristicResult, Option.getD_some] at hm
  have hp := (List.mem_filter.mp hm).2
  intro hnil
  rw [hnil] at hp
  simp at hp

/-- Witness for claim C4: the revenue item extracted from `c2doc` is a
member of the output mapping and is non-empty. -/
theorem claim4_witness :
    ("revenue", ([("2024", 1000), ("2023", 900)] : List (String × ℚ))).2 ≠ [] :=
  claim4_no_empty_items c2doc c2record rfl ("revenue", [("2024", 1000), ("2023", 900)])
    (by decide)

theorem lexLtB_asymm : ∀ a b : List Char, lexLtB a b = true → lexLtB b a = false := by
  intro a
  induction a with
  | nil =>
      intro b h
      cases b with
      | nil => simp [lexLtB] at h
      | cons y ys => simp [lexLtB]
  | cons x xs ih =>
      intro b h
      cases b with
      | nil => simp [lexLtB] at h
      | cons y ys =>
          by_cases hxy : x < y
          · have hyx : ¬ y < x := lt_asymm hxy
            simp [lexLtB, hxy, hyx]
          · by_cases hyx : y < x
            · simp [lexLtB, hxy, hyx] at h
            · simp only [lexLtB, if_neg hxy, if_neg hyx] at h
              simp [lexLtB, hxy, hyx, ih ys h]

theorem lexLtB_trans : ∀ a b c : List Char,
    lexLtB a b = true → lexLtB b c = true → lexLtB a c = true := by
  intro a
  induction a with
  | nil =>
      intro b c hab hbc
      cases b with
      | nil => simp [lexLtB] at hab
      | cons y ys =>
          cases c with
          | nil => simp [lexLtB] at hbc
          | cons z zs => simp [lexLtB]
  | cons x xs ih =>
      intro b c hab hbc
      cases b with
      | nil => simp [lexLtB] at hab
      | cons y ys =>
          cases c with
          | nil => simp [lexLtB] at hbc
          | cons z zs =>
              by_cases hxy : x < y
              · by_cases hyz : y < z
                · have hxz : x < z := lt_trans hxy hyz
                  simp [lexLtB, hxz]
                · by_cases hzy : z < y
                  · simp [lexLtB, hyz, hzy] at hbc
                  · have hyz' : y = z := le_antisymm (not_lt.mp hzy) (not_lt.mp hyz)
                    subst hyz'
                    simp [lexLtB, hxy]
              · by_cases hyx : y < x
                · simp [lexLtB, hxy, hyx] at hab
                · have hxy' : x = y := le_antisymm (not_lt.mp hyx) (not_lt.mp hxy)
                  subst hxy'
                  simp only [lexLtB, if_neg hxy, if_neg hyx] at hab
                  by_cases hxz : x < z
                  · simp [lexLtB, hxz]
                  · by_cases hzx : z < x
                    · simp [lexLtB, hxz, hzx] at hbc
                    · simp only [lexLtB, if_neg hxz, if_neg hzx] at hbc ⊢
                      exact ih ys zs hab hbc

theorem lexLtB_false_antisymm : ∀ a b : List Char,
    lexLtB a b = false → lexLtB b a = false → a = b := by
  intro a
  induction a with
  | nil =>
      intro b h₁ _
      cases b with
      | nil => rfl
      | cons y ys => simp [lexLtB] at h₁
  | cons x xs ih =>
      intro b h₁ h₂
      cases b with
      | nil => simp [lexLtB] at h₂
      | cons y ys =>
          by_cases hxy : x < y
          · simp [lexLtB, hxy] at h₁
          · by_cases hyx : y < x
            · simp [lexLtB, hyx] at h₂
            · have hxy' : x = y := le_antisymm (not_lt.mp hyx) (not_lt.mp hxy)
              simp only [lexLtB, if_neg hxy, if_neg hyx] at h₁
              simp only [lexLtB, if_neg hyx, if_neg hxy] at h₂
              rw [hxy', ih ys h₁ h₂]

/-- On distinct strings, non-strict descending order is strict. -/
theorem lexLtB_of_ge_ne (a b : String) (hge : descGe a b) (hne : a ≠ b) :
    lexLtB b.data a.data = true := by
  cases hba : lexLtB b.data a.data with
  | true => rfl
  | false =>
      have hd : a.data = b.data := lexLtB_false_antisymm _ _ hge hba
      exact absurd (show a = b from congrArg String.mk hd) hne

theorem insertDescend_perm (x : String) : ∀ l, List.Perm (insertDescend x l) (x :: l) := by
  intro l
  induction l with
  | nil => exact List.Perm.refl _
  | cons y ys ih =>
      by_cases h : lexLtB y.data x.data = true
      · rw [insertDescend, if_pos h]
      · rw [insertDescend, if_neg h]
        exact (ih.cons y).trans (List.Perm.swap x y ys)

theorem sortedDescend_perm : ∀ l : List String, List.Perm (sortedDescend l) l := by
  intro l
  induction l with
  | nil => exact List.Perm.refl _
  | cons x xs ih => exact (insertDescend_perm x (sortedDescend xs)).trans (ih.cons x)

theorem insertDescend_pairwise (x : String) :
    ∀ l, List.Pairwise descGe l → List.Pairwise descGe (insertDescend x l) := by
  intro l
  induction l with
  | nil => intro _; exact List.pairwise_singleton _ _
  | cons y ys ih =>
      intro hp
      obtain ⟨hy, hys⟩ := List.pairwise_cons.mp hp
      by_cases h : lexLtB y.data x.data = true
      · rw [insertDescend, if_pos h]
        refine List.pairwise_cons.mpr ⟨?_, hp⟩
        intro z hz
        rcases List.mem_cons.mp hz with hz | hz
        · subst hz
          exact lexLtB_asymm _ _ h
        · have hyz : lexLtB y.data z.data = false := hy z hz
          cases hxz : lexLtB x.data z.data with
          | false => exact hxz
          | true => simp [lexLtB_trans _ _ _ h hxz] at hyz
      · rw [insertDescend, if_neg h]
        refine List.pairwise_cons.mpr ⟨?_, ih hys⟩
        intro z hz
        rcases List.mem_cons.mp ((insertDescend_perm x ys).mem_iff.mp hz) with hz | hz
        · subst hz
          exact Bool.eq_false_iff.mpr h
        · exact hy z hz

theorem sortedDescend_pairwise : ∀ l : List String, List.Pairwise descGe (sortedDescend l) := by
  intro l
  induction l with
  | nil => exact List.Pairwise.nil
  | cons x xs ih => exact insertDescend_pairwise x _ ih

/-- Claim C3 fails on the code: the source requires word boundaries around
the year (`\b(20\d{2})\b`), the claim's procedure does not.  On the text
"12025" the claim's procedure collects the substring "2025", while the
code finds no boundary-delimited match and falls back to the default. -/
theorem claim3_counterexample :
    claimFiscalYears "12025" = ["2025"] ∧
    fiscal_years_of "12025" = ["2024", "2023"] ∧
    claimFiscalYears "12025" ≠ fiscal_years_of "12025" :=
  ⟨by decide, by decide, by decide⟩

/-- Claim C3 amended: the fiscal-year list is obtained from the
word-boundary-delimited occurrences of `20\d\d` (not from all substrings);
it always has length at most 3, is strictly descending, has no
duplicates, equals `["2024", "2023"]` when no delimited occurrence
exists, and otherwise draws every entry from the matched occurrences. -/
theorem claim3_amended : ∀ t : String,
    (fiscal_years_of t).length ≤ 3 ∧
    List.Pairwise (fun a b => lexLtB b.data a.data = true) (fiscal_years_of t) ∧
    (fiscal_years_of t).Nodup ∧
    (findYears false t.data = [] → fiscal_years_of t = ["2024", "2023"]) ∧
    (∀ y ∈ fiscal_years_of t, findYears false t.data ≠ [] → y ∈ findYears false t.data) := by
  intro t
  simp only [fiscal_years_of]
  by_cases hempty : sortedDescend (findYears false t.data).dedup = []
  · have hperm := sortedDescend_perm (findYears false t.data).dedup
    rw [hempty] at hperm
    have hfy : findYears false t.data = [] := (List.dedup_eq_nil _).mp hperm.symm.eq_nil
    have hval : (if sortedDescend (findYears false t.data).dedup = [] then ["2024", "2023"]
        else sortedDescend (findYears false t.data).dedup).take 3 = ["2024", "2023"] := by
      rw [if_pos hempty]
      rfl
    rw [hval]
    exact ⟨by decide, by decide, by decide, fun _ => rfl, fun y _ hne => absurd hfy hne⟩
  · have hperm := sortedDescend_perm (findYears false t.data).dedup
    have hnd : (sortedDescend (findYears false t.data).dedup).Nodup :=
      hperm.nodup_iff.mpr (List.nodup_dedup _)
    have hpw := sortedDescend_pairwise (findYears false t.data).dedup
    have hstrict : List.Pairwise (fun a b => lexLtB b.data a.data = true)
        (sortedDescend (findYears false t.data).dedup) :=
      (hpw.and hnd).imp (fun h => lexLtB_of_ge_ne _ _ h.1 h.2)
    rw [if_neg hempty]
    refine ⟨List.length_take_le _ _, hstrict.sublist (List.take_sublist _ _),
            hnd.sublist (List.take_sublist _ _),
            fun hfy => absurd (by rw [hfy]; rfl : sortedDescend (findYears false t.data).dedup = []) hempty,
            ?_⟩
    intro y hy _
    exact List.mem_dedup.mp (hperm.mem_iff.mp (List.mem_of_mem_take hy))

/-- Witness for the amended claim C3: on "12025" (no boundary-delimited
year) the default applies, and on a document with delimited years every
output year is a matched occurrence. -/
theorem claim3_witness :
    fiscal_years_of "12025" = ["2024", "2023"] ∧
    "2024" ∈ findYears false ("docs 2023 2024").data :=
  ⟨(claim3_amended "12025").2.2.2.1 (by decide),
   (claim3_amended "docs 2023 2024").2.2.2.2 "2024" (by decide) (by decide)⟩

/-- Claim C10: the heuristic extractor succeeds on every input — the
outer exception handler is unreachable because the only fallible step,
`float` on a number token, is individually guarded; a malformed token
(such as the bare comma-dot produced on `c10doc`, or a bare comma) is
silently skipped, leaving that fiscal year absent. -/
theorem claim10_total_and_guarded :
    (∀ t : String, ∃ r, extract_financial_data_with_patterns t = Except.ok r) ∧
    extract_financial_data_with_patterns c10doc = Except.ok c10record ∧
    findNumbers "revenues ,. 5".data = [",.", "5"] ∧
    pythonFloat ",." = none ∧
    pythonFloat "," = none ∧
    dlookup "revenue" (c10record.financial_data.getD []) = some [("2023", 5)] :=
  ⟨fun t => ⟨_, rfl⟩, by rfl, by decide, by decide, by decide, by decide⟩

theorem filter_yearCells_ne_row (row col r c : Nat) (d : List (String × List (String × ℚ)))
    (k : String) (hr : r ≠ row) :
    ∀ ys, (yearCellsFrom row col d k ys).filter (fun e => e.1 = r && e.2.1 = c) = [] := by
  intro ys
  induction ys generalizing col with
  | nil => rfl
  | cons y ys ih =>
      rw [yearCellsFrom, List.filter_cons_of_neg]
      · exact ih (col + 1)
      · simp [Ne.symm hr]

theorem filter_yearCells_lt_col (row r c : Nat) (d : List (String × List (String × ℚ)))
    (k : String) :
    ∀ ys col, c < col →
      (yearCellsFrom row col d k ys).filter (fun e => e.1 = r && e.2.1 = c) = [] := by
  intro ys
  induction ys with
  | nil => intro col _; rfl
  | cons y ys ih =>
      intro col h
      rw [yearCellsFrom, List.filter_cons_of_neg]
      · exact ih (col + 1) (Nat.lt_succ_of_lt h)
      · simp
        omega

theorem filter_yearCells_get (row : Nat) (d : List (String × List (String × ℚ))) (k : String) :
    ∀ (ys : List String) (col j : Nat) (y : String), ys.get? j = some y →
      (yearCellsFrom row col d k ys).filter (fun e => e.1 = row && e.2.1 = col + j) =
        [(row, col + j, yearDataCell d k y)] := by
  intro ys
  induction ys with
  | nil => intro col j y h; simp at h
  | cons y₀ ys ih =>
      intro col j y h
      cases j with
      | zero =>
          have hy : y₀ = y := by simpa using h
          subst hy
          rw [Nat.add_zero, yearCellsFrom, List.filter_cons_of_pos]
          · rw [filter_yearCells_lt_col row row col d k ys (col + 1) (Nat.lt_succ_self col)]
          · simp
      | succ j' =>
          rw [yearCellsFrom, List.filter_cons_of_neg]
          · have := ih (col + 1) j' y (by simpa using h)
            rw [show col + 1 + j' = col + (j' + 1) by omega] at this
            exact this
          · simp

theorem filter_dataRows_lt_row (years : List String) (d : List (String × List (String × ℚ)))
    (r c : Nat) :
    ∀ (items : List (String × String)) (row : Nat), r < row →
      (dataRowsFrom row years d items).filter (fun e => e.1 = r && e.2.1 = c) = [] := by
  intro items
  induction items with
  | nil => intro row _; rfl
  | cons kl rest ih =>
      intro row h
      obtain ⟨k, l⟩ := kl
      rw [dataRowsFrom, List.cons_append, List.filter_cons_of_neg, List.filter_append,
          filter_yearCells_ne_row row 2 r c d k (by omega) years,
          ih (row + 1) (by omega), List.nil_append]
      simp
      omega

theorem filter_dataRows_label (years : List String) (d : List (String × List (String × ℚ))) :
    ∀ (items : List (String × String)) (i row : Nat) (k l : String),
      items.get? i = some (k, l) →
      (dataRowsFrom row years d items).filter (fun e => e.1 = row + i && e.2.1 = 1) =
        [(row + i, 1, labelCell l)] := by
  intro items
  induction items with
  | nil => intro i row k l h; simp at h
  | cons kl rest ih =>
      intro i row k l h
      obtain ⟨k₀, l₀⟩ := kl
      cases i with
      | zero =>
          obtain ⟨hk, hl⟩ : k₀ = k ∧ l₀ = l := by simpa using h
          subst hk
          subst hl
          rw [Nat.add_zero, dataRowsFrom, List.cons_append, List.filter_cons_of_pos]
          · rw [List.filter_append,
                filter_yearCells_lt_col row row 1 d k₀ years 2 (by omega),
                filter_dataRows_lt_row years d row 1 rest (row + 1) (by omega), List.nil_append]
          · simp
      | succ i' =>
          rw [dataRowsFrom, List.cons_append, List.filter_cons_of_neg]
          · rw [List.filter_append,
                filter_yearCells_ne_row row 2 (row + (i' + 1)) 1 d k₀ (by omega) years,
                List.nil_append]
            have := ih i' (row + 1) k l (by simpa using h)
            rw [show row + 1 + i' = row + (i' + 1) by omega] at this
            exact this
          · simp

theorem filter_dataRows_year (years : List String) (d : List (String × List (String × ℚ))) :
    ∀ (items : List (String × String)) (i row : Nat) (k l : String) (j : Nat) (y : String),
      items.get? i = some (k, l) → years.get? j = some y →
      (dataRowsFrom row years d items).filter (fun e => e.1 = row + i && e.2.1 = 2 + j) =
        [(row + i, 2 + j, yearDataCell d k y)] := by
  intro items
  induction items with
  | nil => intro i row k l j y h _; simp at h
  | cons kl rest ih =>
      intro i row k l j y h hy
      obtain ⟨k₀, l₀⟩ := kl
      cases i with
      | zero =>
          obtain ⟨hk, hl⟩ : k₀ = k ∧ l₀ = l := by simpa using h
          subst hk
          subst hl
          rw [Nat.add_zero, dataRowsFrom, List.cons_append, List.filter_cons_of_neg]
          · rw [List.filter_append,
                filter_yearCells_get row d k₀ years 2 j y hy,
                filter_dataRows_lt_row years d row (2 + j) rest (row + 1) (by omega),
                List.append_nil]
          · simp
            omega
      | succ i' =>
          rw [dataRowsFrom, List.cons_append, List.filter_cons_of_neg]
          · rw [List.filter_append,
                filter_yearCells_ne_row row 2 (row + (i' + 1)) (2 + j) d k₀ (by omega) years,
                List.nil_append]
            have := ih i' (row + 1) k l j y (by simpa using h) hy
            rw [show row + 1 + i' = row + (i' + 1) by omega] at this
            exact this
          · simp

theorem filter_headerCells_ne_row (r c : Nat) (hr : r ≠ 5) :
    ∀ (ys : List String) (col : Nat),
      (headerCellsFrom col ys).filter (fun e => e.1 = r && e.2.1 = c) = [] := by
  intro ys
  induction ys with
  | nil => intro col; rfl
  | cons y ys ih =>
      intro col
      rw [headerCellsFrom, List.filter_cons_of_neg]
      · exact ih (col + 1)
      · simp [Ne.symm hr]

theorem filter_noteCells_lt_row (r c : Nat) :
    ∀ (notes : List String) (row : Nat), r < row →
      (noteCellsFrom row notes).filter (fun e => e.1 = r && e.2.1 = c) = [] := by
  intro notes
  induction notes with
  | nil => intro row _; rfl
  | cons n ns ih =>
      intro row h
      rw [noteCellsFrom, List.filter_cons_of_neg]
      · exact ih (row + 1) (by omega)
      · simp
        omega

/-- The single write to the label cell of data row `i` of the rendered
sheet. -/
theorem app_cells_filter_label (fr : FinancialRecord) (i : Nat) (key label : String)
    (hi : i < 11) (hitem : financial_items_list.get? i = some (key, label)) :
    (App.create_excel_workbook fr).cells.filter (fun e => e.1 = 6 + i && e.2.1 = 1) =
      [(6 + i, 1, labelCell label)] := by
  simp only [App.create_excel_workbook]
  rw [List.filter_cons_of_neg, List.filter_cons_of_neg, List.filter_cons_of_neg,
      List.filter_cons_of_neg, List.filter_append, List.filter_append,
      filter_headerCells_ne_row (6 + i) 1 (by omega) _ 2,
      filter_dataRows_label _ _ financial_items_list i 6 key label hitem,
      List.filter_cons_of_neg, filter_noteCells_lt_row (6 + i) 1 _ _ (by simp [financial_items_list]; omega),
      List.nil_append, List.append_nil]
  · simp [financial_items_list]
    omega
  · simp
    omega
  · simp
    omega
  · simp
    omega
  · simp
    omega

/-- The single write to the year cell (row `i`, fiscal-year position `j`)
of the rendered sheet. -/
theorem app_cells_filter_year (fr : FinancialRecord) (i j : Nat) (key label year : String)
    (hi : i < 11) (hitem : financial_items_list.get? i = some (key, label))
    (hyear : (fr.fiscal_years.getD []).get? j = some year) :
    (App.create_excel_workbook fr).cells.filter (fun e => e.1 = 6 + i && e.2.1 = 2 + j) =
      [(6 + i, 2 + j, yearDataCell (fr.financial_data.getD []) key year)] := by
  simp only [App.create_excel_workbook]
  rw [List.filter_cons_of_neg, List.filter_cons_of_neg, List.filter_cons_of_neg,
      List.filter_cons_of_neg, List.filter_append, List.filter_append,
      filter_headerCells_ne_row (6 + i) (2 + j) (by omega) _ 2,
      filter_dataRows_year _ _ financial_items_list i 6 key label j year hitem hyear,
      List.filter_cons_of_neg, filter_noteCells_lt_row (6 + i) (2 + j) _ _ (by simp [financial_items_list]; omega),
      List.nil_append, List.append_nil]
  · simp
    omega
  · simp
    omega
  · simp
    omega
  · simp
    omega
  · simp
    omega

/-- Claim C5: rows 6 to 16 carry one row per line item in the fixed
vocabulary order (label in column 1 of row 6+i); each fiscal-year cell
holds the numeric value with the thousands-separator two-decimal format
when the item and year are present, and the distinct highlighted "N/A"
cell when absent. -/
theorem claim5_rendered_rows :
    ∀ (fr : FinancialRecord) (i j : Nat) (key label year : String),
      financial_items_list.get? i = some (key, label) →
      (fr.fiscal_years.getD []).get? j = some year →
      (cellAt (App.create_excel_workbook fr) (6 + i) 1 = some (labelCell label) ∧
       cellAt (App.create_excel_workbook fr) (6 + i) (2 + j) =
         some (yearDataCell (fr.financial_data.getD []) key year)) ∧
      (∀ v, lookupValue (fr.financial_data.getD []) key year = some v →
         yearDataCell (fr.financial_data.getD []) key year = valueCell v) ∧
      (lookupValue (fr.financial_data.getD []) key year = none →
         yearDataCell (fr.financial_data.getD []) key year = naCell) ∧
      (∀ v : ℚ, naCell ≠ valueCell v) := by
  intro fr i j key label year hitem hyear
  have hi : i < 11 := by
    obtain ⟨h, _⟩ := List.get?_eq_some.mp hitem
    simpa [financial_items_list] using h
  refine ⟨⟨?_, ?_⟩, ?_, ?_, ?_⟩
  · rw [cellAt, cellsWrittenAt, app_cells_filter_label fr i key label hi hitem]
    rfl
  · rw [cellAt, cellsWrittenAt, app_cells_filter_year fr i j key label year hi hitem hyear]
    rfl
  · intro v hv
    unfold lookupValue at hv
    unfold yearDataCell
    cases hk : dlookup key (fr.financial_data.getD []) with
    | none =>
        rw [hk] at hv
        simp at hv
    | some m =>
        rw [hk] at hv
        dsimp only at hv
        dsimp only
        rw [hv]
  · intro hv
    unfold lookupValue at hv
    unfold yearDataCell
    cases hk : dlookup key (fr.financial_data.getD []) with
    | none => rfl
    | some m =>
        rw [hk] at hv
        dsimp only at hv
        dsimp only
        rw [hv]
  · intro v
    simp [naCell, valueCell]

/-- Witness for claim C5: in the spec's scenario (years 2024 and 2023,
revenue only for 2024) the revenue row carries the formatted value in the
2024 column and the highlighted "N/A" in the 2023 column. -/
theorem claim5_witness :
    cellAt (App.create_excel_workbook c5record) 6 2 = some (valueCell 100) ∧
    cellAt (App.create_excel_workbook c5record) 6 3 = some naCell := by
  have h1 := claim5_rendered_rows c5record 0 0 "revenue" "Revenue" "2024" rfl rfl
  have h2 := claim5_rendered_rows c5record 0 1 "revenue" "Revenue" "2023" rfl rfl
  exact ⟨h1.1.2.trans (congrArg some (h1.2.1 100 rfl)),
         h2.1.2.trans (congrArg some (h2.2.2.1 rfl))⟩

theorem dlookup_filter_mem {α : Type} (k : String) (keys : List String)
    (d : List (String × α)) (hk : keys.contains k = true) :
    dlookup k (d.filter (fun kv => keys.contains kv.1)) = dlookup k d := by
  induction d with
  | nil => rfl
  | cons kv rest ih =>
      obtain ⟨k₁, v₁⟩ := kv
      by_cases h : k₁ = k
      · subst h
        rw [List.filter_cons_of_pos (by simpa using hk)]
        simp [dlookup]
      · by_cases hf : keys.contains k₁ = true
        · rw [List.filter_cons_of_pos (by simpa using hf)]
          simp only [dlookup, if_neg h]
          exact ih
        · rw [List.filter_cons_of_neg (by simpa using hf)]
          rw [ih]
          simp only [dlookup, if_neg h]

theorem yearDataCell_congr (d d' : List (String × List (String × ℚ))) (k year : String)
    (h : dlookup k d' = dlookup k d) : yearDataCell d' k year = yearDataCell d k year := by
  unfold yearDataCell
  rw [h]

theorem yearCellsFrom_congr (row : Nat) (d d' : List (String × List (String × ℚ)))
    (k : String) (h : dlookup k d' = dlookup k d) :
    ∀ (ys : List String) (col : Nat),
      yearCellsFrom row col d' k ys = yearCellsFrom row col d k ys := by
  intro ys
  induction ys with
  | nil => intro col; rfl
  | cons y ys ih =>
      intro col
      rw [yearCellsFrom, yearCellsFrom, yearDataCell_congr d d' k y h, ih (col + 1)]

/-- Filtering the data down to the vocabulary keys does not change any
rendered data row. -/
theorem dataRowsFrom_filter (years : List String) (d : List (String × List (String × ℚ))) :
    ∀ (items : List (String × String)) (row : Nat),
      (∀ p ∈ items, vocabKeys.contains p.1 = true) →
      dataRowsFrom row years (d.filter (fun kv => vocabKeys.contains kv.1)) items =
        dataRowsFrom row years d items := by
  intro items
  induction items with
  | nil => intro row _; rfl
  | cons kl rest ih =>
      intro row hmem
      obtain ⟨k, l⟩ := kl
      rw [dataRowsFrom, dataRowsFrom,
          yearCellsFrom_congr row d _ k
            (dlookup_filter_mem k vocabKeys d (hmem (k, l) (List.mem_cons_self _ _))),
          ih (row + 1) (fun p hp => hmem p (List.mem_cons_of_mem _ hp))]

/-- Claim C6: line-item keys outside the fixed 11-key vocabulary are
silently dropped by both renderer copies — rendering a record equals
rendering the record with its financial data restricted to the
vocabulary. -/
theorem claim6_unknown_keys_dropped :
    ∀ fr : FinancialRecord,
      App.create_excel_workbook fr =
        App.create_excel_workbook
          { fr with financial_data :=
              fr.financial_data.map (fun d => d.filter (fun kv => vocabKeys.contains kv.1)) } ∧
      Api.create_excel_workbook fr =
        Api.create_excel_workbook
          { fr with financial_data :=
              fr.financial_data.map (fun d => d.filter (fun kv => vocabKeys.contains kv.1)) } := by
  intro fr
  have key : dataRowsFrom 6 (fr.fiscal_years.getD [])
      ((fr.financial_data.map (fun d => d.filter (fun kv => vocabKeys.contains kv.1))).getD [])
      financial_items_list =
    dataRowsFrom 6 (fr.fiscal_years.getD []) (fr.financial_data.getD [])
      financial_items_list := by
    cases hfd : fr.financial_data with
    | none => rfl
    | some d =>
        simp only [Option.map_some', Option.getD_some]
        exact dataRowsFrom_filter _ d financial_items_list 6 (by decide)
  constructor
  · simp only [App.create_excel_workbook]
    rw [key]
  · simp only [Api.create_excel_workbook]
    rw [key]

/-- Claim C9: the two copies of the renderer, in app.py and
api/extract.py, produce identical sheets (cell contents, layout and
formatting) on every record; their sources differ only in the unused
`data_fill` style binding. -/
theorem claim9_renderers_equal :
    ∀ fr : FinancialRecord, App.create_excel_workbook fr = Api.create_excel_workbook fr :=
  fun _ => rfl

/-- Claim C7: the model-assisted extractor's prompt depends on the
document only through its first 8000 characters; a failing external call
yields the "Claude API error" `serviceError`; given a response, the call
succeeds exactly when the response deserializes as JSON (the
deserializer's whitespace-strip invariance reflects `json.loads`), and
fails with the "Failed to parse" `extractionFailed` exactly when it does
not. -/
theorem claim7_claude_contract :
    ∀ (J : Type) (apiCall : String → Except String String) (json_loads : String → Option J)
      (t : String),
      (∀ s : String, json_loads (pyStrip s) = json_loads s) →
      (claudePrompt t = claudePromptPrefix ++ t.take 8000 ++ claudePromptSuffix) ∧
      (∀ t' : String, t'.take 8000 = t.take 8000 →
        extract_financial_data_with_claude apiCall json_loads t' =
          extract_financial_data_with_claude apiCall json_loads t) ∧
      (∀ e, apiCall (claudePrompt t) = Except.error e →
        extract_financial_data_with_claude apiCall json_loads t =
          Except.error (ClaudeError.serviceError ("Claude API error: " ++ e))) ∧
      (∀ resp, apiCall (claudePrompt t) = Except.ok resp →
        ((∃ jv, extract_financial_data_with_claude apiCall json_loads t = Except.ok jv) ↔
          (json_loads resp).isSome) ∧
        ((∃ m, extract_financial_data_with_claude apiCall json_loads t =
            Except.error (ClaudeError.extractionFailed m)) ↔ json_loads resp = none)) := by
  intro J apiCall json_loads t hinv
  refine ⟨rfl, ?_, ?_, ?_⟩
  · intro t' ht
    unfold extract_financial_data_with_claude claudePrompt
    rw [ht]
  · intro e he
    unfold extract_financial_data_with_claude
    rw [he]
  · intro resp hresp
    unfold extract_financial_data_with_claude
    rw [hresp]
    dsimp only
    rw [hinv resp]
    cases hjl : json_loads resp with
    | none =>
        refine ⟨⟨?_, ?_⟩, ⟨?_, ?_⟩⟩
        · rintro ⟨jv, hj⟩
          simp at hj
        · intro hs
          simp at hs
        · intro _
          rfl
        · intro _
          exact ⟨"Failed to parse financial data", rfl⟩
    | some x =>
        refine ⟨⟨?_, ?_⟩, ⟨?_, ?_⟩⟩
        · intro _
          rfl
        · intro _
          exact ⟨x, rfl⟩
        · rintro ⟨m, hm⟩
          simp at hm
        · intro hn
          simp at hn

/-- Witness for claim C7: a failing call produces the service error, and
a non-JSON response produces the parse failure. -/
theorem claim7_witness :
    extract_financial_data_with_claude (fun _ => Except.error "boom")
        (fun _ => (none : Option Nat)) "doc" =
      Except.error (ClaudeError.serviceError ("Claude API error: " ++ "boom")) ∧
    extract_financial_data_with_claude (fun _ => Except.ok "not json")
        (fun _ => (none : Option Nat)) "doc" =
      Except.error (ClaudeError.extractionFailed "Failed to parse financial data") :=
  ⟨(claim7_claude_contract Nat (fun _ => Except.error "boom") (fun _ => none) "doc"
      (fun _ => rfl)).2.2.1 "boom" rfl,
   rfl⟩

/-- Claim C8: a document whose trimmed length is under 100 characters
(the empty document included) is rejected with the exact 400 error
message and no workbook; a trimmed length of 100 or more passes the check
and yields a workbook. -/
theorem claim8_short_document_rejected :
    ∀ t : String,
      ((pyStrip t).length < 100 →
        extract_route_after_text t =
          Except.error (400, "Document appears to be empty or unreadable")) ∧
      (100 ≤ (pyStrip t).length → ∃ sheet, extract_route_after_text t = Except.ok sheet) := by
  intro t
  constructor
  · intro h
    unfold extract_route_after_text
    rw [if_pos]
    simp [h]
  · intro h
    unfold extract_route_after_text
    rw [if_neg]
    · exact ⟨_, rfl⟩
    · intro hcond
      simp only [Bool.or_eq_true, decide_eq_true_eq] at hcond
      rcases hcond with h1 | h2
      · rw [h1] at h
        exact absurd h (by decide)
      · omega

/-- Witness for claim C8: a 5-character document is rejected with the
exact message, and a 120-character document passes. -/
theorem claim8_witness :
    extract_route_after_text "short" =
      Except.error (400, "Document appears to be empty or unreadable") ∧
    ∃ sheet, extract_route_after_text c8longdoc = Except.ok sheet :=
  ⟨(claim8_short_document_rejected "short").1 (by decide),
   (claim8_short_document_rejected c8longdoc).2 (by decide)⟩

end Portal
